import Mathlib

/-!
Verification development for the bsale-webhook repository.

The repository contains several variants of one Express application that
synchronizes a Supabase order store with the Bsale commerce API:

- an order fulfillment poller (pollerTick / pollPendingOrders / procesarOrden
  / crearNotaBsale) that discovers orders, claims them, submits a document to
  Bsale, and records the outcome on the order row, and
- a stock synchronization engine (runStockSync / fetchAllProductsWithStock)
  that paginates the Bsale inventory feed and upserts quantities by SKU.

This file is a shallow embedding of those functions. Database writes are
modelled as pure updates of explicit row values or row lists, HTTP calls as
explicit outcome values passed in, JS truthiness as explicit tests on Option
values, and the unbounded page loops as fuel-indexed recursion where the fuel
mirrors the source page cap (MAX_PAGES_STOCK) or is a strict upper bound on
the pages a concrete input can visit.
-/

/-- Order status values used by the source (pending, processing, processed,
error; part_000 additionally writes the literal enviada). -/
inductive OrderStatus
  | pending
  | processing
  | processed
  | error
  | enviada
deriving DecidableEq, Repr

/-- Response body of a Bsale document POST, as inspected by crearNotaBsale:
only body.id and body.document.id are read. -/
structure BsaleBody where
  id : Option Int
  documentId : Option Int
deriving DecidableEq, Repr

/-- Raw value stored into bsale_response: the HTTP body on a response, or the
exception data / message string on a transport exception. -/
inductive RawResp
  | body (b : BsaleBody)
  | msg (s : String)
deriving DecidableEq, Repr

/-- Row of the orders table, restricted to the columns the embedded code
reads or writes. -/
structure OrderRow where
  id : Nat
  orderNumber : Option String
  status : OrderStatus
  processedAt : Option Nat
  lastError : Option String
  bsaleNoteId : Option String
  bsaleResponse : Option RawResp
  createdAt : Nat
deriving DecidableEq, Repr

/-- Row of the order_items table, restricted to the fields read by the three
detail builders (mapOrderToBsalePayload, buildBsaleDocumentPayload,
mapItemsToBsale). -/
structure OrderItem where
  quantity : Option Int
  unit_price_net : Option Int
  unit_price : Option Int
  discount : Option Int
  discount_percentage : Option Int
  tax_id : Option Int
  product_id : Option Nat
  sku : Option String
  description : Option String
  products_sku : Option String
deriving DecidableEq, Repr

/-- JS truthiness of an optional integer (null, undefined and 0 are falsy). -/
def truthyOptInt : Option Int → Bool
  | some n => n != 0
  | none => false

/-- JS truthiness of an optional natural (null, undefined and 0 are falsy). -/
def truthyOptNat : Option Nat → Bool
  | some n => n != 0
  | none => false

/-- JS expression Number(v or d): the default d is taken when v is absent,
null or 0 (falsy), otherwise v itself. -/
def jsNumOr (v : Option Int) (d : Int) : Int :=
  match v with
  | none => d
  | some n => if n = 0 then d else n

/-- Outcome of the axios POST performed by crearNotaBsale: either an HTTP
response (any status, validateStatus always true) or a thrown transport
exception carrying an optional response status and a message. -/
inductive SubmitOutcome
  | httpResp (status : Nat) (body : BsaleBody)
  | exn (status : Option Nat) (message : String)
deriving DecidableEq, Repr

/-- Return value of crearNotaBsale. -/
structure NotaResult where
  ok : Bool
  noteId : Option Int
  raw : RawResp
  status : Nat
deriving DecidableEq, Repr

/-- Note id extraction in crearNotaBsale: body.id ?? body.document.id ?? null. -/
def extractNoteId (b : BsaleBody) : Option Int :=
  match b.id with
  | some n => some n
  | none => b.documentId

/-- Embedding of crearNotaBsale (index.js lines 475 to 507): on a 2xx status
with a truthy note id it returns ok with the id and the raw body; on any
other response it returns not-ok with the raw body; on a thrown exception it
returns not-ok with the exception data and status or 0. -/
def crearNotaBsale : SubmitOutcome → NotaResult
  | .httpResp status body =>
    let noteId := extractNoteId body
    if 200 ≤ status ∧ status < 300 ∧ truthyOptInt noteId = true then
      { ok := true, noteId := noteId, raw := .body body, status := status }
    else
      { ok := false, noteId := none, raw := .body body, status := status }
  | .exn st m =>
    { ok := false, noteId := none, raw := .msg m, status := st.getD 0 }

/-- JS String(v) applied to the extracted note id (only reached when the id
is a number in the source). -/
def jsStringOfNoteId : Option Int → String
  | some n => toString n
  | none => "null"

/-- Outcome of the order_items select inside procesarOrden. -/
inductive ItemsFetch
  | ok (items : List OrderItem)
  | err (message : String)
deriving DecidableEq, Repr

/-- Embedding of procesarOrden (index.js lines 512 to 551) as the update it
performs on the processed order row. The items select failing writes status
error with an items message; otherwise the result of crearNotaBsale decides
between the processed update (stamping processed_at, storing the note id and
raw response, clearing last_error) and the error update (clearing the note
id, storing the raw response and a bsale(status) message). -/
def procesarOrden (o : OrderRow) (itemsRes : ItemsFetch) (submit : SubmitOutcome)
    (now : Nat) : OrderRow :=
  match itemsRes with
  | .err m => { o with status := .error, lastError := some ("items: " ++ m) }
  | .ok _items =>
    let res := crearNotaBsale submit
    if res.ok && truthyOptInt res.noteId then
      { o with
        status := .processed
        processedAt := some now
        bsaleNoteId := some (jsStringOfNoteId res.noteId)
        bsaleResponse := some res.raw
        lastError := none }
    else
      { o with
        status := .error
        bsaleNoteId := none
        bsaleResponse := some res.raw
        lastError := some ("bsale(" ++ toString res.status ++ ")") }

/-- Embedding of the per-order claim step of pollerTick (index.js lines 574
to 578): the update sets status processing filtered only by id, with no
status guard, and its result is not inspected, so the attempt always
proceeds to procesarOrden (second component true). -/
def pollerTickClaimStep (o : OrderRow) : OrderRow × Bool :=
  ({ o with status := .processing }, true)

/-- Embedding of the catch handler of the pollerTick per-order loop (index.js
lines 579 to 584). -/
def pollerTickExceptionUpdate (o : OrderRow) (m : String) : OrderRow :=
  { o with status := .error, lastError := some ("exception: " ++ m) }

/-- Embedding of the order update performed by the enqueue variant of the
POST /api/bsale handler (index.js lines 693 to 696): status back to pending
and processed_at cleared, in one update. -/
def enqueueOrderUpdate (o : OrderRow) : OrderRow :=
  { o with status := .pending, processedAt := none }

/-- Embedding of the claim step of pollPendingOrders (part_000 lines 126 to
138): a conditional update setting status processing filtered by id and by
status pending; the boolean reports whether the row matched (select single
returned a row). A non-matching row is left unchanged and the caller skips
it. -/
def claimOrderPending (o : OrderRow) : OrderRow × Bool :=
  if o.status = OrderStatus.pending then ({ o with status := .processing }, true)
  else (o, false)

/-- Serialization of n claim attempts of pollPendingOrders against one row
(atomic conditional writes execute in some serial order). The second
component counts the attempts that matched. -/
def claimAttemptsN : Nat → OrderRow → OrderRow × Nat
  | 0, o => (o, 0)
  | n + 1, o =>
    let step := claimOrderPending o
    let rest := claimAttemptsN n step.1
    (rest.1, (if step.2 then 1 else 0) + rest.2)

/-- Serialization of n claim attempts of pollerTick against one row; every
attempt proceeds because the update carries no status guard. -/
def pollerTickClaimAttemptsN : Nat → OrderRow → OrderRow × Nat
  | 0, o => (o, 0)
  | n + 1, o =>
    let step := pollerTickClaimStep o
    let rest := pollerTickClaimAttemptsN n step.1
    (rest.1, (if step.2 then 1 else 0) + rest.2)

/-- Sample pending order row used for concrete evaluations. -/
def pendingOrderSample : OrderRow :=
  { id := 1, orderNumber := some "O1", status := .pending, processedAt := none,
    lastError := none, bsaleNoteId := none, bsaleResponse := none, createdAt := 0 }

lemma claimAttemptsN_not_pending (n : Nat) (o : OrderRow)
    (h : o.status ≠ OrderStatus.pending) : claimAttemptsN n o = (o, 0) := by
  induction n with
  | zero => rfl
  | succ n ih =>
    simp only [claimAttemptsN, claimOrderPending, if_neg h]
    simp [ih]

/-- C1 counterexample: two serialized pollerTick claim attempts against the
same pending row both proceed (the update at index.js line 577 has no status
guard and its matched count is ignored), so the count of succeeding attempts
is 2, not exactly 1 as the claim states. -/
theorem c1_pollerTick_two_attempts_both_proceed :
    pendingOrderSample.status = OrderStatus.pending ∧
    (pollerTickClaimAttemptsN 2 pendingOrderSample).2 = 2 := by
  constructor
  · rfl
  · rfl

/-- C1 (amended): the pollPendingOrders claim (part_000) is a conditional
update guarded by status pending; a row that does not match is skipped
unchanged, and of n + 1 serialized claim attempts against one pending row
exactly one succeeds. The pollerTick variant in index.js updates without a
guard, so exclusivity does not hold there (see the counterexample). -/
theorem c1_claim_exclusivity (o o2 : OrderRow) (n : Nat)
    (h : o.status = OrderStatus.pending) (h2 : o2.status ≠ OrderStatus.pending) :
    (claimAttemptsN (n + 1) o).2 = 1 ∧ claimOrderPending o2 = (o2, false) := by
  constructor
  · simp only [claimAttemptsN, claimOrderPending, if_pos h]
    have hne : ({ o with status := .processing } : OrderRow).status ≠ OrderStatus.pending := by
      simp
    simp [claimAttemptsN_not_pending n _ hne]
  · simp [claimOrderPending, if_neg h2]

/-- C1 witness: the exclusivity theorem applied to a concrete pending row
and a concrete processing row, with three serialized attempts. -/
theorem c1_claim_exclusivity_witness :
    (claimAttemptsN 3 pendingOrderSample).2 = 1 ∧
    claimOrderPending { pendingOrderSample with status := .processing } =
      ({ pendingOrderSample with status := .processing }, false) :=
  c1_claim_exclusivity pendingOrderSample
    { pendingOrderSample with status := .processing } 2 rfl (by decide)

/-- Status invariant of the spec: processed_at is non-null iff the status is
processed. -/
def statusInvariant (o : OrderRow) : Prop :=
  o.processedAt.isSome = true ↔ o.status = OrderStatus.processed

/-- C2: every write of the order reconciler and of the enqueue endpoint
preserves the status invariant. Orders enter procesarOrden and the claim and
exception updates only through the pollerTick discovery filter, which
guarantees processed_at is null; under that hypothesis the success update
stamps processed_at together with status processed, and every error or
claim update sets a non-processed status while leaving processed_at null.
The enqueue update restores the invariant on any row by clearing
processed_at together with setting status pending. -/
theorem c2_status_invariant (o o2 : OrderRow) (itemsRes : ItemsFetch)
    (submit : SubmitOutcome) (now : Nat) (m : String)
    (h : o.processedAt = none) :
    statusInvariant (procesarOrden o itemsRes submit now) ∧
    statusInvariant (pollerTickClaimStep o).1 ∧
    statusInvariant (pollerTickExceptionUpdate o m) ∧
    statusInvariant (enqueueOrderUpdate o2) := by
  refine ⟨?_, ?_, ?_, ?_⟩
  · cases itemsRes with
    | err m2 => simp [procesarOrden, statusInvariant, h]
    | ok items =>
      simp only [procesarOrden]
      split
      · simp [statusInvariant]
      · simp [statusInvariant, h]
  · simp [pollerTickClaimStep, statusInvariant, h]
  · simp [pollerTickExceptionUpdate, statusInvariant, h]
  · simp [enqueueOrderUpdate, statusInvariant]

/-- C2 witness: the invariant preservation theorem applied to a concrete
discovered row (processed_at null), a successful submission outcome, and a
concrete second row. -/
theorem c2_status_invariant_witness :
    statusInvariant
      (procesarOrden pendingOrderSample (.ok [])
        (.httpResp 200 { id := some 777, documentId := none }) 5) ∧
    statusInvariant (pollerTickClaimStep pendingOrderSample).1 ∧
    statusInvariant (pollerTickExceptionUpdate pendingOrderSample "boom") ∧
    statusInvariant (enqueueOrderUpdate pendingOrderSample) :=
  c2_status_invariant pendingOrderSample pendingOrderSample (.ok [])
    (.httpResp 200 { id := some 777, documentId := none }) 5 "boom" rfl

/-- Sample order item with sku A1, quantity 2, unit price 100. -/
def itemA1 : OrderItem :=
  { quantity := some 2, unit_price_net := none, unit_price := some 100,
    discount := none, discount_percentage := none, tax_id := none,
    product_id := none, sku := some "A1", description := none,
    products_sku := none }

/-- Sample order item with sku B2, quantity 1, unit price 50. -/
def itemB2 : OrderItem :=
  { quantity := some 1, unit_price_net := none, unit_price := some 50,
    discount := none, discount_percentage := none, tax_id := none,
    product_id := none, sku := some "B2", description := none,
    products_sku := none }

/-- Sample response body carrying document id 777. -/
def sampleBody777 : BsaleBody := { id := some 777, documentId := none }

/-- C3: a claimed order whose submission returns a 2xx status with a truthy
note id in the body transitions to processed with processed_at stamped, the
note id stringified into bsale_note_id, the raw body stored in
bsale_response, and last_error cleared. -/
theorem c3_success_transition (o : OrderRow) (items : List OrderItem)
    (status : Nat) (body : BsaleBody) (nid : Int) (now : Nat)
    (h1 : 200 ≤ status) (h2 : status < 300)
    (h3 : extractNoteId body = some nid) (h4 : nid ≠ 0) :
    procesarOrden o (.ok items) (.httpResp status body) now =
      { o with
        status := .processed
        processedAt := some now
        bsaleNoteId := some (toString nid)
        bsaleResponse := some (.body body)
        lastError := none } := by
  have htruthy : truthyOptInt (some nid) = true := by
    simp [truthyOptInt, h4]
  have hres : crearNotaBsale (.httpResp status body) =
      { ok := true, noteId := some nid, raw := .body body, status := status } := by
    simp only [crearNotaBsale, h3]
    rw [if_pos ⟨h1, h2, htruthy⟩]
  simp only [procesarOrden, hres]
  simp [htruthy, jsStringOfNoteId]

/-- C3 witness: the spec scenario, with two items (A1 qty 2 price 100 and
B2 qty 1 price 50) and a submit response of status 200 and body id 777, the
order ends processed with bsale_note_id 777 and processed_at stamped. -/
theorem c3_success_transition_witness :
    procesarOrden pendingOrderSample (.ok [itemA1, itemB2])
        (.httpResp 200 sampleBody777) 5 =
      { pendingOrderSample with
        status := .processed
        processedAt := some 5
        bsaleNoteId := some (toString (777 : Int))
        bsaleResponse := some (.body sampleBody777)
        lastError := none } :=
  c3_success_transition pendingOrderSample [itemA1, itemB2] 200 sampleBody777
    777 5 (by decide) (by decide) rfl (by decide)

/-- C4: a claimed order whose submission ends in any outcome other than a
2xx status with a truthy note id (non-2xx, missing or falsy id, or a thrown
transport exception or timeout) transitions to error with bsale_note_id
null, the raw response or exception data stored in bsale_response, and
last_error set to the summary bsale(status). -/
theorem c4_failure_transition (o : OrderRow) (items : List OrderItem)
    (submit : SubmitOutcome) (now : Nat)
    (h : ∀ st body, submit = .httpResp st body →
      st < 200 ∨ 300 ≤ st ∨ truthyOptInt (extractNoteId body) = false) :
    procesarOrden o (.ok items) submit now =
      { o with
        status := .error
        bsaleNoteId := none
        bsaleResponse := some (crearNotaBsale submit).raw
        lastError :=
          some ("bsale(" ++ toString (crearNotaBsale submit).status ++ ")") } := by
  cases submit with
  | httpResp st body =>
    have hcond : ¬(200 ≤ st ∧ st < 300 ∧ truthyOptInt (extractNoteId body) = true) := by
      rcases h st body rfl with h1 | h1 | h1
      · exact fun hc => absurd hc.1 (by omega)
      · exact fun hc => absurd hc.2.1 (by omega)
      · exact fun hc => by simp [h1] at hc
    simp only [procesarOrden, crearNotaBsale]
    rw [if_neg hcond]
    simp
  | exn st m =>
    simp [procesarOrden, crearNotaBsale]

/-- Containment of one string in another, witnessed by an explicit split. -/
def containsSub (s sub : String) : Prop := ∃ a b, s = a ++ sub ++ b

/-- C4 witness: the spec scenario, the same order with a submit response of
status 402; the order ends in error with bsale_note_id null and last_error
bsale(402), which contains the digits 402. -/
theorem c4_failure_transition_witness :
    (procesarOrden pendingOrderSample (.ok [itemA1, itemB2])
        (.httpResp 402 sampleBody777) 5 =
      { pendingOrderSample with
        status := .error
        bsaleNoteId := none
        bsaleResponse := some (.body sampleBody777)
        lastError := some "bsale(402)" }) ∧
    containsSub "bsale(402)" "402" := by
  constructor
  · have := c4_failure_transition pendingOrderSample [itemA1, itemB2]
      (.httpResp 402 sampleBody777) 5
      (by intro st body heq; cases heq; right; left; decide)
    simpa using this
  · refine ⟨"bsale(", ")", ?_⟩
    rfl

/-- Eligibility predicate of the pollerTick discovery query (index.js lines
559 to 564): status in pending, processing, error and processed_at null. -/
def eligibleForPoll (o : OrderRow) : Bool :=
  (o.status == OrderStatus.pending || o.status == OrderStatus.processing ||
    o.status == OrderStatus.error) && o.processedAt.isNone

/-- Embedding of the pollerTick discovery query: filter the orders table by
eligibility and take the first MAX_BATCH rows. The query has no order
clause, so the result follows the table (insertion) order of the store
model. -/
def pollerDiscover (db : List OrderRow) (maxBatch : Nat) : List OrderRow :=
  (db.filter eligibleForPoll).take maxBatch

/-- Ascending insertion into a list sorted by created_at. -/
def insertByCreatedAt (o : OrderRow) : List OrderRow → List OrderRow
  | [] => [o]
  | x :: xs =>
    if o.createdAt ≤ x.createdAt then o :: x :: xs
    else x :: insertByCreatedAt o xs

/-- Stable ascending sort by created_at. -/
def sortByCreatedAt : List OrderRow → List OrderRow
  | [] => []
  | x :: xs => insertByCreatedAt x (sortByCreatedAt xs)

/-- Embedding of the pollPendingOrders discovery query (part_000 lines 113
to 119): filter to status pending only, order ascending by created_at, limit
MAX_BATCH. There is no processed_at filter and no other status is
selected. -/
def pollPendingSelect (db : List OrderRow) (maxBatch : Nat) : List OrderRow :=
  (sortByCreatedAt (db.filter (fun o => o.status == OrderStatus.pending))).take maxBatch

/-- Sample order row sitting in error status with processed_at null. -/
def errOrderSample : OrderRow :=
  { id := 2, orderNumber := some "O2", status := .error, processedAt := none,
    lastError := some "bsale(500)", bsaleNoteId := none, bsaleResponse := none,
    createdAt := 1 }

/-- C5 counterexample: the pollPendingOrders discovery (part_000) selects
rows by status pending only, so a store holding exactly one order in error
status with processed_at null yields an empty discovery result; the claim
states an error order is eligible for the next pass. -/
theorem c5_pollPendingOrders_excludes_error :
    errOrderSample.status = OrderStatus.error ∧
    errOrderSample.processedAt = none ∧
    pollPendingSelect [errOrderSample] 5 = [] := by
  refine ⟨rfl, rfl, ?_⟩
  rfl

/-- C5 (amended): the pollerTick discovery returns at most maxBatch orders,
every returned order satisfies the eligibility filter (status in pending,
processing, error and processed_at null), the result is a sublist of the
store in store order, an order in error status with processed_at null
satisfies the filter, and no returned order has status processed. The
pollPendingOrders variant in part_000 instead selects only pending orders
ordered by created_at, so error orders are not eligible there (see the
counterexample). -/
theorem c5_discover_properties (db : List OrderRow) (n : Nat) (oe : OrderRow)
    (h1 : oe.status = OrderStatus.error) (h2 : oe.processedAt = none) :
    (pollerDiscover db n).length ≤ n ∧
    (pollerDiscover db n).all eligibleForPoll = true ∧
    List.Sublist (pollerDiscover db n) db ∧
    eligibleForPoll oe = true ∧
    (pollerDiscover db n).all (fun o => !(o.status == OrderStatus.processed)) = true := by
  have hsub : List.Sublist (pollerDiscover db n) db :=
    (List.take_sublist _ _).trans (List.filter_sublist _)
  have hmem : ∀ o ∈ pollerDiscover db n, eligibleForPoll o = true := by
    intro o ho
    have : o ∈ db.filter eligibleForPoll :=
      ((List.take_sublist n (db.filter eligibleForPoll)).subset) ho
    exact (List.mem_filter.mp this).2
  refine ⟨?_, ?_, hsub, ?_, ?_⟩
  · rw [pollerDiscover, List.length_take]
    exact min_le_left _ _
  · exact List.all_eq_true.mpr hmem
  · simp [eligibleForPoll, h1, h2]
  · refine List.all_eq_true.mpr ?_
    intro o ho
    have he := hmem o ho
    simp only [eligibleForPoll, Bool.and_eq_true, Bool.or_eq_true, beq_iff_eq] at he
    rcases he.1 with (h | h) | h <;> simp [h]

/-- C5 witness: the discovery properties applied to a concrete store holding
a pending order and an error order, with batch size 5. -/
theorem c5_discover_properties_witness :
    (pollerDiscover [pendingOrderSample, errOrderSample] 5).length ≤ 5 ∧
    (pollerDiscover [pendingOrderSample, errOrderSample] 5).all eligibleForPoll = true ∧
    List.Sublist (pollerDiscover [pendingOrderSample, errOrderSample] 5)
      [pendingOrderSample, errOrderSample] ∧
    eligibleForPoll errOrderSample = true ∧
    (pollerDiscover [pendingOrderSample, errOrderSample] 5).all
      (fun o => !(o.status == OrderStatus.processed)) = true :=
  c5_discover_properties [pendingOrderSample, errOrderSample] 5 errOrderSample
    rfl rfl

/-- Raw Bsale stocks item as read by mapStocksToSkuQty: only variant.code
and quantity are inspected. -/
structure StockItem where
  variantCode : Option String
  quantity : Option Int
deriving DecidableEq, Repr

/-- Sku and quantity pair upserted into the stock table. -/
structure SkuQty where
  sku : String
  quantity : Int
deriving DecidableEq, Repr

/-- Whitespace test used by jsTrim. -/
def isWsChar (c : Char) : Bool :=
  c = ' ' || c = '\t' || c = '\n' || c = '\r'

/-- Executable embedding of the JS string trim: leading and trailing
whitespace characters are removed. -/
def jsTrim (s : String) : String :=
  String.mk (((s.data.dropWhile isWsChar).reverse.dropWhile isWsChar).reverse)

/-- Embedding of mapStocksToSkuQty (index.js lines 144 to 150): the sku is
variant.code or the empty string, trimmed; the quantity is Number of the
quantity field or 0; rows with an empty sku are filtered out. -/
def mapStocksToSkuQty (items : List StockItem) : List SkuQty :=
  (items.map (fun it =>
    { sku := jsTrim (it.variantCode.getD ""),
      quantity := jsNumOr it.quantity 0 })).filter (fun x => x.sku != "")

/-- Response of one Bsale stocks page request, as observed by runStockSync:
either a 200 body with an items array and the presence of a next link, or a
non-200 status (fetchBsaleStockPage throws on any status other than 200,
carrying the status in the error message). -/
inductive PageResp
  | ok (items : List StockItem) (next : Bool)
  | fail (status : Nat)
deriving DecidableEq, Repr

/-- Status test of the office fallback in runStockSync (index.js line 183):
the string of the status is one of 401, 403, 404. -/
def authNF (st : Nat) : Bool :=
  st == 401 || st == 403 || st == 404

/-- Observable outcome of one stock sync pass: the page requests issued in
order (page number paired with the noOffice flag, so the second component
false means the request carried the office scope), the upsert batches
committed in order, and the status of the error that aborted the pass, if
any. -/
structure SyncResult where
  requests : List (Nat × Bool)
  committed : List (List SkuQty)
  aborted : Option Nat
deriving DecidableEq, Repr

/-- Embedding of the page loop of runStockSync (index.js lines 168 to 222).
The fuel counts the remaining loop iterations, starting at MAX_PAGES_STOCK;
fuel 0 is the loop condition page greater than MAX_PAGES_STOCK failing. A
fetch failure falls back once to an unscoped refetch when the office scope
is still on, the page is 1 and the status is 401, 403 or 404; any other
failure propagates to the outer catch, recorded as aborted. An empty items
array ends the loop; otherwise the mapped rows are upserted (the upsert is
skipped on an empty mapped batch) and the loop continues only when the body
has a next link. -/
def runStockSyncAux (feed : Nat → Bool → PageResp) : Nat → Nat → Bool → SyncResult
  | 0, _, _ => { requests := [], committed := [], aborted := none }
  | fuel + 1, page, noOff =>
    match feed page noOff with
    | .fail st =>
      if noOff = false ∧ page = 1 ∧ authNF st = true then
        match feed page true with
        | .fail st2 =>
          { requests := [(page, false), (page, true)], committed := [],
            aborted := some st2 }
        | .ok items next =>
          if items.isEmpty then
            { requests := [(page, false), (page, true)], committed := [],
              aborted := none }
          else
            let rows := mapStocksToSkuQty items
            let batch := if rows.isEmpty then [] else [rows]
            if next then
              let r := runStockSyncAux feed fuel (page + 1) true
              { requests := (page, false) :: (page, true) :: r.requests,
                committed := batch ++ r.committed, aborted := r.aborted }
            else
              { requests := [(page, false), (page, true)], committed := batch,
                aborted := none }
      else
        { requests := [(page, noOff)], committed := [], aborted := some st }
    | .ok items next =>
      if items.isEmpty then
        { requests := [(page, noOff)], committed := [], aborted := none }
      else
        let rows := mapStocksToSkuQty items
        let batch := if rows.isEmpty then [] else [rows]
        if next then
          let r := runStockSyncAux feed fuel (page + 1) noOff
          { requests := (page, noOff) :: r.requests,
            committed := batch ++ r.committed, aborted := r.aborted }
        else
          { requests := [(page, noOff)], committed := batch, aborted := none }

/-- One stock sync pass: pages start at 1 with the office scope on, bounded
by the configured maximum page count. -/
def runStockSync (feed : Nat → Bool → PageResp) (maxPages : Nat) : SyncResult :=
  runStockSyncAux feed maxPages 1 false

lemma runStockSyncAux_noOff_all (feed : Nat → Bool → PageResp) (fuel : Nat) :
    ∀ page, ((runStockSyncAux feed fuel page true).requests.all
      (fun q => q.2)) = true := by
  induction fuel with
  | zero => intro page; rfl
  | succ fuel ih =>
    intro page
    simp only [runStockSyncAux]
    cases hf : feed page true with
    | fail st => simp
    | ok items next =>
      by_cases hi : items.isEmpty
      · simp [hi]
      · by_cases hn : next
        · simp [hi, hn, ih (page + 1)]
        · simp [hi, hn]

lemma runStockSyncAux_fail_aborts (feed : Nat → Bool → PageResp)
    (fuel page : Nat) (noOff : Bool) (st : Nat)
    (hf : feed page noOff = .fail st)
    (hcond : ¬(noOff = false ∧ page = 1 ∧ authNF st = true)) :
    runStockSyncAux feed (fuel + 1) page noOff =
      { requests := [(page, noOff)], committed := [], aborted := some st } := by
  simp only [runStockSyncAux, hf]
  rw [if_neg hcond]

lemma runStockSync_fallback_shape (feed : Nat → Bool → PageResp) (m st : Nat)
    (h1 : feed 1 false = .fail st) (h2 : authNF st = true) :
    (runStockSyncAux feed (m + 1) 1 false).requests.head? = some (1, false) ∧
    (runStockSyncAux feed (m + 1) 1 false).requests.tail.head? = some (1, true) ∧
    ((runStockSyncAux feed (m + 1) 1 false).requests.tail.all
      (fun q => q.2)) = true := by
  simp only [runStockSyncAux, h1]
  rw [if_pos (by simp [h2])]
  cases hft : feed 1 true with
  | fail st2 => simp
  | ok items next =>
    by_cases hi : items.isEmpty
    · simp [hi]
    · by_cases hn : next
      · simp [hi, hn, runStockSyncAux_noOff_all feed m 2]
      · simp [hi, hn]

lemma runStockSync_double_fail (feed : Nat → Bool → PageResp) (m st st2 : Nat)
    (h1 : feed 1 false = .fail st) (h2 : authNF st = true)
    (h3 : feed 1 true = .fail st2) :
    runStockSyncAux feed (m + 1) 1 false =
      { requests := [(1, false), (1, true)], committed := [],
        aborted := some st2 } := by
  simp only [runStockSyncAux, h1]
  rw [if_pos (by simp [h2]), h3]

/-- C6: office scope fallback of runStockSync. With a feed whose scoped
first page fails with a 401, 403 or 404 status, the pass issues the scoped
page 1 request, retries page 1 exactly once without the scope, and every
request after the first is unscoped for the rest of the run. A failure on
any page other than 1 aborts the pass at once with a single request for
that page, a failure on any request already unscoped aborts likewise, and
when the unscoped retry of page 1 itself fails the whole pass ends with
exactly the two page 1 requests and the second failure recorded. -/
theorem c6_office_fallback (feed : Nat → Bool → PageResp) (maxPages st : Nat)
    (feedB : Nat → Bool → PageResp) (fuelB pageB : Nat) (noOffB : Bool) (stB : Nat)
    (feedC : Nat → Bool → PageResp) (fuelC pageC stC : Nat)
    (feedD : Nat → Bool → PageResp) (maxD stD stD2 : Nat)
    (h1 : feed 1 false = .fail st) (h2 : authNF st = true) (h3 : 1 ≤ maxPages)
    (hB1 : pageB ≠ 1) (hB2 : feedB pageB noOffB = .fail stB)
    (hC : feedC pageC true = .fail stC)
    (hD1 : feedD 1 false = .fail stD) (hD2 : authNF stD = true)
    (hD3 : feedD 1 true = .fail stD2) (hD4 : 1 ≤ maxD) :
    (runStockSync feed maxPages).requests.head? = some (1, false) ∧
    (runStockSync feed maxPages).requests.tail.head? = some (1, true) ∧
    ((runStockSync feed maxPages).requests.tail.all (fun q => q.2)) = true ∧
    runStockSyncAux feedB (fuelB + 1) pageB noOffB =
      { requests := [(pageB, noOffB)], committed := [], aborted := some stB } ∧
    runStockSyncAux feedC (fuelC + 1) pageC true =
      { requests := [(pageC, true)], committed := [], aborted := some stC } ∧
    runStockSync feedD maxD =
      { requests := [(1, false), (1, true)], committed := [],
        aborted := some stD2 } := by
  obtain ⟨m, rfl⟩ : ∃ m, maxPages = m + 1 := ⟨maxPages - 1, by omega⟩
  obtain ⟨mD, rfl⟩ : ∃ mD, maxD = mD + 1 := ⟨maxD - 1, by omega⟩
  obtain ⟨sh1, sh2, sh3⟩ := runStockSync_fallback_shape feed m st h1 h2
  refine ⟨sh1, sh2, sh3, ?_, ?_, ?_⟩
  · exact runStockSyncAux_fail_aborts feedB fuelB pageB noOffB stB hB2
      (fun hc => hB1 hc.2.1)
  · exact runStockSyncAux_fail_aborts feedC fuelC pageC true stC hC
      (fun hc => by cases hc.1)
  · exact runStockSync_double_fail feedD mD stD stD2 hD1 hD2 hD3

/-- Feed realizing the C6 fallback scenario: the scoped page 1 request
returns 404, the unscoped retry succeeds with one item and no next link. -/
def feedC6 : Nat → Bool → PageResp := fun page noOff =>
  if page = 1 ∧ noOff = false then .fail 404
  else if page = 1 then .ok [{ variantCode := some "A", quantity := some 3 }] false
  else .ok [] false

/-- Feed that always fails with 500. -/
def feedFail500 : Nat → Bool → PageResp := fun _ _ => .fail 500

/-- Feed that always fails with 404. -/
def feedFail404 : Nat → Bool → PageResp := fun _ _ => .fail 404

/-- C6 witness: the fallback theorem applied to the concrete scenario feed
(scoped page 1 returns 404, retry without scope succeeds), to a feed
failing with 500 on page 2, to a feed failing unscoped on page 3, and to a
feed whose unscoped retry also fails with 404. -/
theorem c6_office_fallback_witness :
    (runStockSync feedC6 50).requests.head? = some (1, false) ∧
    (runStockSync feedC6 50).requests.tail.head? = some (1, true) ∧
    ((runStockSync feedC6 50).requests.tail.all (fun q => q.2)) = true ∧
    runStockSyncAux feedFail500 (48 + 1) 2 false =
      { requests := [(2, false)], committed := [], aborted := some 500 } ∧
    runStockSyncAux feedFail500 (47 + 1) 3 true =
      { requests := [(3, true)], committed := [], aborted := some 500 } ∧
    runStockSync feedFail404 50 =
      { requests := [(1, false), (1, true)], committed := [],
        aborted := some 404 } :=
  c6_office_fallback feedC6 50 404 feedFail500 48 2 false 500 feedFail500 47 3
    500 feedFail404 50 404 404 rfl (by decide) (by decide) (by decide) rfl rfl
    rfl (by decide) rfl (by decide)

lemma runStockSyncAux_len_noOff (feed : Nat → Bool → PageResp) (fuel : Nat) :
    ∀ page, (runStockSyncAux feed fuel page true).requests.length ≤ fuel := by
  induction fuel with
  | zero => intro page; simp [runStockSyncAux]
  | succ fuel ih =>
    intro page
    simp only [runStockSyncAux]
    cases hf : feed page true with
    | fail st => simp
    | ok items next =>
      by_cases hi : items.isEmpty
      · simp [hi]
      · by_cases hn : next
        · simp only [hi, hn, if_true, if_false, Bool.false_eq_true]
          simp only [List.length_cons]
          have := ih (page + 1)
          omega
        · simp [hi, hn]

lemma runStockSyncAux_len (feed : Nat → Bool → PageResp) (fuel : Nat) :
    ∀ page noOff, (runStockSyncAux feed fuel page noOff).requests.length ≤ fuel + 1 := by
  induction fuel with
  | zero => intro page noOff; simp [runStockSyncAux]
  | succ fuel ih =>
    intro page noOff
    have h2 := runStockSyncAux_len_noOff feed fuel (page + 1)
    have h3 := ih (page + 1) noOff
    simp only [runStockSyncAux]
    repeat' split
    all_goals
      simp only [SyncResult.requests, List.length_cons, List.length_singleton,
        List.length_nil] at h2 h3 ⊢
    all_goals omega

lemma runStockSyncAux_k_pages (feed : Nat → Bool → PageResp)
    (items : Nat → List StockItem) (K : Nat)
    (hok : ∀ i, 1 ≤ i → i < K → feed i false = .ok (items i) true)
    (hne : ∀ i, 1 ≤ i → i ≤ K → (items i).isEmpty = false)
    (hlast : feed K false = .ok (items K) false) :
    ∀ fuel page, 1 ≤ page → page ≤ K → K - page < fuel →
      (runStockSyncAux feed fuel page false).requests =
        (List.range' page (K - page + 1)).map (fun p => (p, false)) ∧
      (runStockSyncAux feed fuel page false).aborted = none := by
  intro fuel
  induction fuel with
  | zero => intro page _ _ h3; omega
  | succ fuel ih =>
    intro page h1 h2 h3
    by_cases hpK : page = K
    · subst hpK
      simp only [runStockSyncAux, hlast]
      simp [hne page h1 h2, List.range']
    · have hlt : page < K := lt_of_le_of_ne h2 hpK
      have hokp := hok page h1 hlt
      simp only [runStockSyncAux, hokp]
      have hnep := hne page h1 h2
      obtain ⟨ihr, iha⟩ := ih (page + 1) (by omega) (by omega) (by omega)
      simp only [hnep, Bool.false_eq_true, if_false, if_true, ihr, iha]
      have hrange : K - page + 1 = (K - (page + 1) + 1) + 1 := by omega
      rw [hrange]
      simp [List.range']

/-- C7 (amended): the page loop of runStockSync continues only while the
response has a next link and the page yielded at least one item, and is
bounded by the fuel (MAX_PAGES_STOCK): for a feed of K pages each with at
least one item, next links on pages below K and none on page K, with K at
most the page cap, the pass issues exactly the K scoped page requests 1 to
K and completes without error; and for every feed the number of requests of
a pass never exceeds the page cap plus one (the one extra request being the
single possible unscoped retry of page 1). The fetchAllProductsWithStock
variant (second program) has no page cap and keeps following next links
even for pages with zero items (see the counterexample). -/
theorem c7_pagination_termination (feed : Nat → Bool → PageResp)
    (items : Nat → List StockItem) (K maxPages : Nat)
    (feedE : Nat → Bool → PageResp) (fuelE pageE : Nat) (noOffE : Bool)
    (hok : ∀ i, 1 ≤ i → i < K → feed i false = .ok (items i) true)
    (hne : ∀ i, 1 ≤ i → i ≤ K → (items i).isEmpty = false)
    (hlast : feed K false = .ok (items K) false)
    (hK1 : 1 ≤ K) (hKmax : K ≤ maxPages) :
    (runStockSync feed maxPages).requests =
      (List.range' 1 K).map (fun p => (p, false)) ∧
    (runStockSync feed maxPages).requests.length = K ∧
    (runStockSync feed maxPages).aborted = none ∧
    (runStockSyncAux feedE fuelE pageE noOffE).requests.length ≤ fuelE + 1 := by
  obtain ⟨hr, ha⟩ := runStockSyncAux_k_pages feed items K hok hne hlast maxPages
    1 le_rfl hK1 (by omega)
  have hK : K - 1 + 1 = K := by omega
  rw [hK] at hr
  have hlen : (runStockSyncAux feed maxPages 1 false).requests.length = K := by
    rw [hr]
    simp
  exact ⟨hr, hlen, ha, runStockSyncAux_len feedE fuelE pageE noOffE⟩

/-- Items served by the C7 witness feed. -/
def itemsC7 : Nat → List StockItem := fun page =>
  [{ variantCode := some ("P" ++ toString page), quantity := some 1 }]

/-- Witness feed for C7: pages 1 and 2 carry one item and a next link, page
3 carries one item and no next link. -/
def feedC7 : Nat → Bool → PageResp := fun page _ =>
  match page with
  | 1 => .ok (itemsC7 1) true
  | 2 => .ok (itemsC7 2) true
  | 3 => .ok (itemsC7 3) false
  | _ => .ok [] false

/-- C7 witness: the termination theorem applied to the concrete three page
feed with the default cap of 50: exactly the three scoped requests are
issued and the pass completes. -/
theorem c7_pagination_termination_witness :
    (runStockSync feedC7 50).requests =
      (List.range' 1 3).map (fun p => (p, false)) ∧
    (runStockSync feedC7 50).requests.length = 3 ∧
    (runStockSync feedC7 50).aborted = none ∧
    (runStockSyncAux feedC7 50 1 false).requests.length ≤ 50 + 1 :=
  c7_pagination_termination feedC7 itemsC7 3 50 feedC7 50 1 false
    (by intro i hi1 hi2; interval_cases i <;> rfl)
    (by intro i hi1 hi2; interval_cases i <;> rfl)
    rfl (by decide) (by decide)

/-- Product record of the products feed; only presence matters for the
pagination claim. -/
structure Product where
  id : Nat
deriving DecidableEq, Repr

/-- Body of one products page as read by fetchAllProductsWithStock: the
optional items array and the truthiness of href.next and next. -/
structure ProductsPage where
  items : Option (List Product)
  hrefNext : Bool
  next : Bool
deriving DecidableEq, Repr

/-- Embedding of fetchAllProductsWithStock (index.js lines 604 to 615): the
recursion pushes any items of the page onto the accumulator and follows to
the next page whenever href.next or next is truthy, with no page cap and no
test on the item count. The fuel only totalizes the embedding; the source
recursion is unbounded, and the first component is none exactly when the
fuel runs out before the feed stops producing next links. -/
def fetchAllProductsWithStock (pfeed : Nat → ProductsPage) :
    Nat → Nat → List Product → Option (List Product) × Nat
  | 0, _, _ => (none, 0)
  | fuel + 1, page, acc =>
    let data := pfeed page
    let acc2 := acc ++ data.items.getD []
    if data.hrefNext || data.next then
      let r := fetchAllProductsWithStock pfeed fuel (page + 1) acc2
      (r.1, r.2 + 1)
    else (some acc2, 1)

/-- Counterexample feed for C7: page 1 has an empty items array but a next
link, page 2 has one item and no next link. -/
def pfeedC7 : Nat → ProductsPage := fun page =>
  if page = 1 then { items := some [], hrefNext := false, next := true }
  else { items := some [{ id := 1 }], hrefNext := false, next := false }

/-- C7 counterexample: fetchAllProductsWithStock keeps paginating after a
page with zero items when the body still carries a next link; on the
concrete feed whose page 1 is empty with a next link it issues 2 page
requests, while the claim (continue only while the current page yielded at
least one item) predicts it stops after the single page 1 request. -/
theorem c7_fetchAllProducts_continues_on_empty_page :
    (pfeedC7 1).items = some [] ∧
    (fetchAllProductsWithStock pfeedC7 60 1 []).2 = 2 := by
  constructor
  · rfl
  · rfl

/-- Feed whose every request returns the rate limit status 429. -/
def feed429 : Nat → Bool → PageResp := fun _ _ => .fail 429

/-- C8 counterexample: a stock pass against a feed answering 429 on every
request issues exactly one request and aborts at once with the 429 recorded;
fetchBsaleStockPage performs a single axios GET and throws on any non-200
status, and no caller retries it, so there is no backoff and no retry
ceiling of 4 attempts as the claim states. -/
theorem c8_rate_limit_not_retried :
    runStockSync feed429 50 =
      { requests := [(1, false)], committed := [], aborted := some 429 } ∧
    (runStockSync feed429 50).requests.length = 1 := by
  constructor
  · rfl
  · rfl

/-- C8 (amended): an upstream inventory GET returning a rate limit status
(or any non-200 status outside the page 1 office fallback) is not retried:
the page fetch throws at once, the pass aborts with that status after a
single request for the failing page, and the upsert batches already
committed for earlier pages remain in place (a page committed with a next
link keeps its batch in the pass outcome whatever the continuation of the
run does, and the abort leaves the continuation outcome untouched). -/
theorem c8_hard_failure_aborts (feed : Nat → Bool → PageResp)
    (fuel page : Nat) (noOff : Bool) (st : Nat)
    (feed2 : Nat → Bool → PageResp) (fuel2 page2 : Nat) (noOff2 : Bool)
    (itms : List StockItem)
    (h1 : feed page noOff = .fail st) (h2 : authNF st = false)
    (h3 : feed2 page2 noOff2 = .ok itms true)
    (h4 : itms.isEmpty = false)
    (h5 : (mapStocksToSkuQty itms).isEmpty = false) :
    runStockSyncAux feed (fuel + 1) page noOff =
      { requests := [(page, noOff)], committed := [], aborted := some st } ∧
    (runStockSyncAux feed2 (fuel2 + 1) page2 noOff2).committed =
      mapStocksToSkuQty itms ::
        (runStockSyncAux feed2 fuel2 (page2 + 1) noOff2).committed ∧
    (runStockSyncAux feed2 (fuel2 + 1) page2 noOff2).aborted =
      (runStockSyncAux feed2 fuel2 (page2 + 1) noOff2).aborted := by
  refine ⟨?_, ?_, ?_⟩
  · exact runStockSyncAux_fail_aborts feed fuel page noOff st h1
      (fun hc => by rw [hc.2.2] at h2; cases h2)
  · simp [runStockSyncAux, h3, h4, h5]
  · simp [runStockSyncAux, h3, h4, h5]

/-- Feed for the C8 witness: page 1 succeeds scoped with one item and a next
link, page 2 returns 429. -/
def feedC8 : Nat → Bool → PageResp := fun page _ =>
  if page = 1 then .ok [{ variantCode := some "A", quantity := some 5 }] true
  else .fail 429

/-- C8 witness: the hard failure theorem applied to the concrete feed whose
page 2 rate limits: the failing page aborts after its single request, and
the batch committed for page 1 remains in the pass outcome. -/
theorem c8_hard_failure_aborts_witness :
    runStockSyncAux feedC8 (48 + 1) 2 false =
      { requests := [(2, false)], committed := [], aborted := some 429 } ∧
    (runStockSyncAux feedC8 (49 + 1) 1 false).committed =
      mapStocksToSkuQty [{ variantCode := some "A", quantity := some 5 }] ::
        (runStockSyncAux feedC8 49 2 false).committed ∧
    (runStockSyncAux feedC8 (49 + 1) 1 false).aborted =
      (runStockSyncAux feedC8 49 2 false).aborted :=
  c8_hard_failure_aborts feedC8 48 2 false 429 feedC8 49 1 false
    [{ variantCode := some "A", quantity := some 5 }]
    rfl (by decide) rfl (by decide) (by decide)

/-- Result of sendBsaleDocument (index.js lines 262 to 273): the body on a
2xx status, otherwise a thrown error naming the status. -/
def sendBsaleDocument (st : Nat) (body : BsaleBody) : Except String BsaleBody :=
  if 200 ≤ st ∧ st < 300 then .ok body
  else .error ("Bsale documento HTTP " ++ toString st)

/-- HTTP response of a POST /api/bsale handler, reduced to the status code
and the ok field of the JSON body. -/
structure HandlerResp where
  status : Nat
  ok : Bool
deriving DecidableEq, Repr

/-- Embedding of the synchronous POST /api/bsale handler (index.js lines 321
to 338): a falsy order_id answers 400; otherwise the order and items are
fetched, the payload submitted, and the handler answers 201 with the Bsale
response on success or 500 when any step of the pipeline throws, including a
non-2xx submission. The handler performs no write to the order row. -/
def apiBsaleSyncHandler (orderId : Option Nat) (fetch : Except String Unit)
    (submitStatus : Nat) (submitBody : BsaleBody) : HandlerResp :=
  if truthyOptNat orderId = true then
    match fetch with
    | .error _ => { status := 500, ok := false }
    | .ok _ =>
      match sendBsaleDocument submitStatus submitBody with
      | .error _ => { status := 500, ok := false }
      | .ok _ => { status := 201, ok := true }
  else { status := 400, ok := false }

/-- Result of the enqueue POST /api/bsale handler: the updated orders table
and the HTTP response. -/
structure EnqueueResult where
  db : List OrderRow
  resp : HandlerResp
deriving DecidableEq, Repr

/-- Embedding of the enqueue POST /api/bsale handler (index.js lines 687 to
700): a falsy order_id answers 400; otherwise the order row is updated to
status pending with processed_at null and the handler answers 200 with ok
true at once (the poller runs later on a timer; no submission outcome is
visible to this handler). -/
def apiBsaleEnqueueHandler (orderId : Option Nat) (db : List OrderRow) :
    EnqueueResult :=
  if truthyOptNat orderId = true then
    { db := db.map (fun o =>
        if o.id = orderId.getD 0 then enqueueOrderUpdate o else o),
      resp := { status := 200, ok := true } }
  else { db := db, resp := { status := 400, ok := false } }

/-- C9 counterexample: the synchronous POST /api/bsale handler (first
program, index.js lines 321 to 338) surfaces the remote submission outcome
in its own response: the same request answers 500 when the submission
returns 402 and 201 when it returns 200, and the handler never resets the
order to pending; the claim states the endpoint always returns an immediate
acknowledgment regardless of the outcome. -/
theorem c9_sync_handler_surfaces_outcome :
    apiBsaleSyncHandler (some 1) (.ok ()) 402 sampleBody777 =
      { status := 500, ok := false } ∧
    apiBsaleSyncHandler (some 1) (.ok ()) 200 sampleBody777 =
      { status := 201, ok := true } := by
  constructor
  · rfl
  · rfl

/-- C9 (amended): the enqueue variant of POST /api/bsale (second program)
does behave as claimed: for every request with a truthy order_id it answers
200 with ok true, the row with the given id is reset to status pending with
processed_at cleared, every other row is untouched, and the response is a
fixed acknowledgment computed before any processing, so no submission
outcome can be surfaced through it. The synchronous variant of the first
program instead submits inline and surfaces the outcome (see the
counterexample). -/
theorem c9_enqueue_handler (db : List OrderRow) (oid : Nat) (h : oid ≠ 0) :
    (apiBsaleEnqueueHandler (some oid) db).resp = { status := 200, ok := true } ∧
    ((apiBsaleEnqueueHandler (some oid) db).db.all (fun o =>
      !(o.id == oid) ||
        (o.status == OrderStatus.pending && o.processedAt.isNone))) = true ∧
    (apiBsaleEnqueueHandler (some oid) db).db =
      db.map (fun o => if o.id = oid then enqueueOrderUpdate o else o) := by
  have ht : truthyOptNat (some oid) = true := by simp [truthyOptNat, h]
  refine ⟨?_, ?_, ?_⟩
  · simp [apiBsaleEnqueueHandler, ht]
  · simp only [apiBsaleEnqueueHandler, ht, if_true, Option.getD_some]
    refine List.all_eq_true.mpr ?_
    intro o ho
    obtain ⟨o0, _, rfl⟩ := List.mem_map.mp ho
    by_cases hid : o0.id = oid
    · simp [hid, enqueueOrderUpdate]
    · simp [hid]
  · simp [apiBsaleEnqueueHandler, ht]

/-- C9 witness: the enqueue handler theorem applied to a concrete store and
order id 1: the response is the fixed 200 acknowledgment and the pending
row reset happens on the matching row. -/
theorem c9_enqueue_handler_witness :
    (apiBsaleEnqueueHandler (some 1) [pendingOrderSample, errOrderSample]).resp =
      { status := 200, ok := true } ∧
    ((apiBsaleEnqueueHandler (some 1) [pendingOrderSample, errOrderSample]).db.all
      (fun o => !(o.id == 1) ||
        (o.status == OrderStatus.pending && o.processedAt.isNone))) = true ∧
    (apiBsaleEnqueueHandler (some 1) [pendingOrderSample, errOrderSample]).db =
      [pendingOrderSample, errOrderSample].map
        (fun o => if o.id = 1 then enqueueOrderUpdate o else o) :=
  c9_enqueue_handler [pendingOrderSample, errOrderSample] 1 (by decide)

/-- Detail line built by mapOrderToBsalePayload for one item. -/
structure BsaleDetail where
  quantity : Int
  net_unit_value : Int
  discount : Int
  tax_id : Int
  product_id : Option Nat
  code : Option String
  description : Option String
deriving DecidableEq, Repr

/-- Embedding of the per item detail construction of mapOrderToBsalePayload
(index.js lines 435 to 446): the quantity falls back to 1 on any falsy
value, net_unit_value prefers unit_price_net when not null and otherwise
unit_price or 0, discount falls back to 0, tax_id falls back to 1 only when
null (a 0 is kept), and product_id, code and description are attached only
when truthy. -/
def mapDetail (it : OrderItem) : BsaleDetail :=
  { quantity := jsNumOr it.quantity 1
    net_unit_value :=
      match it.unit_price_net with
      | some v => v
      | none => jsNumOr it.unit_price 0
    discount := jsNumOr it.discount 0
    tax_id := it.tax_id.getD 1
    product_id :=
      match it.product_id with
      | some n => if n = 0 then none else some n
      | none => none
    code :=
      match it.sku with
      | some s => if s = "" then none else some s
      | none => none
    description :=
      match it.description with
      | some s => if s = "" then none else some s
      | none => none }

/-- Details array of mapOrderToBsalePayload. -/
def mapOrderToBsalePayloadDetails (items : List OrderItem) : List BsaleDetail :=
  items.map mapDetail

/-- Detail line built by buildBsaleDocumentPayload for one item. -/
structure DocDetail where
  code : Option String
  quantity : Int
deriving DecidableEq, Repr

/-- Embedding of the per item detail construction of
buildBsaleDocumentPayload (index.js lines 246 to 250): the sku column is
copied as the code and the quantity falls back to 1 on any falsy value. -/
def buildDocDetail (it : OrderItem) : DocDetail :=
  { code := it.sku, quantity := jsNumOr it.quantity 1 }

/-- Details array of buildBsaleDocumentPayload. -/
def buildBsaleDocumentDetails (items : List OrderItem) : List DocDetail :=
  items.map buildDocDetail

/-- Detail line built by mapItemsToBsale (part_000). -/
structure PartDetail where
  quantity : Option Int
  price : Option Int
  discount : Option Int
  code : String
deriving DecidableEq, Repr

/-- Embedding of mapItemsToBsale (part_000 lines 26 to 33): quantity, price
and discount are copied through unchanged (no defaults at all) and the code
is the nested products sku or the empty string. -/
def mapItemsToBsale (details : List OrderItem) : List PartDetail :=
  details.map (fun it =>
    { quantity := it.quantity
      price := it.unit_price
      discount := it.discount_percentage
      code := it.products_sku.getD "" })

/-- Order item whose quantity column holds 0. -/
def zeroQtyItem : OrderItem :=
  { quantity := some 0, unit_price_net := none, unit_price := some 100,
    discount := none, discount_percentage := none, tax_id := none,
    product_id := none, sku := some "A1", description := none,
    products_sku := some "A1" }

/-- C10 counterexample: mapItemsToBsale (part_000) copies the quantity
through unchanged, so an item whose quantity is 0 produces a detail line
with quantity 0, not the default 1 the claim states every builder applies
to falsy quantities. -/
theorem c10_mapItemsToBsale_passthrough :
    mapItemsToBsale [zeroQtyItem] =
      [{ quantity := some 0, price := some 100, discount := none,
         code := "A1" }] ∧
    (mapItemsToBsale [zeroQtyItem]).map (fun d => d.quantity) ≠ [some 1] := by
  constructor
  · rfl
  · decide

/-- C10 (amended): the two detail builders of the index.js programs do
default a falsy quantity to 1: for every item whose quantity is absent,
null or 0, the detail line built by mapOrderToBsalePayload and the one
built by buildBsaleDocumentPayload both carry quantity 1. The mapItemsToBsale
builder of part_000 instead copies the quantity through unchanged (see the
counterexample). -/
theorem c10_falsy_quantity_defaults_one (it : OrderItem)
    (h : it.quantity = none ∨ it.quantity = some 0) :
    (mapDetail it).quantity = 1 ∧ (buildDocDetail it).quantity = 1 := by
  rcases h with h | h <;>
    simp [mapDetail, buildDocDetail, jsNumOr, h]

/-- C10 witness: the default applied to a concrete item whose quantity is
0. -/
theorem c10_falsy_quantity_defaults_one_witness :
    (mapDetail zeroQtyItem).quantity = 1 ∧
    (buildDocDetail zeroQtyItem).quantity = 1 :=
  c10_falsy_quantity_defaults_one zeroQtyItem (Or.inr rfl)
